import Mathlib

/-!
Verification of the serial command/response protocol engine of the
Velocio PLC controller (`mdc_ctvelocio.py`).

The controller is modelled as pure functions over an explicit serial-port
state.  A byte is a `Nat` (0-255 on the wire); a frame or response is a
`List Nat`.  The device at the other end of the serial link is modelled as
a function from the written frame to the bytes it makes available during
the settle interval that follows the write.
-/

set_option maxRecDepth 4000

namespace Velocio

/-- A frame or response: an ordered sequence of bytes. -/
abbrev Bytes := List Nat

/-- The device side of the serial link: for each frame written, the bytes
it places on the wire during the settle interval after the write. -/
abbrev Device := Bytes → Bytes

/-- State of the serial port as seen by the controller: the bytes
currently pending (readable via `inWaiting`/`read`) and the log of frames
written so far, oldest first. -/
structure SerState where
  pending : Bytes
  written : List Bytes
deriving Repr, DecidableEq

/-- `READ_INPUT_BITS`: the six 8-byte input-bit query frames. -/
def READ_INPUT_BITS : List Bytes := [
  [0x56, 0xff, 0xff, 0x00, 0x08, 0x0a, 0x00, 0x01],
  [0x56, 0xff, 0xff, 0x00, 0x08, 0x0a, 0x00, 0x02],
  [0x56, 0xff, 0xff, 0x00, 0x08, 0x0a, 0x00, 0x03],
  [0x56, 0xff, 0xff, 0x00, 0x08, 0x0a, 0x00, 0x04],
  [0x56, 0xff, 0xff, 0x00, 0x08, 0x0a, 0x00, 0x05],
  [0x56, 0xff, 0xff, 0x00, 0x08, 0x0a, 0x00, 0x06]]

/-- `READ_OUTPUT_BITS`: the six 8-byte output-bit query frames. -/
def READ_OUTPUT_BITS : List Bytes := [
  [0x56, 0xff, 0xff, 0x00, 0x08, 0x0a, 0x00, 0x07],
  [0x56, 0xff, 0xff, 0x00, 0x08, 0x0a, 0x00, 0x08],
  [0x56, 0xff, 0xff, 0x00, 0x08, 0x0a, 0x00, 0x09],
  [0x56, 0xff, 0xff, 0x00, 0x08, 0x0a, 0x00, 0x0a],
  [0x56, 0xff, 0xff, 0x00, 0x08, 0x0a, 0x00, 0x0b],
  [0x56, 0xff, 0xff, 0x00, 0x08, 0x0a, 0x00, 0x0c]]

/-- `COMMAND_IMPLEMENTATIONS`: association from a command identifier to
the ordered list of instruction frames it sends.  Python dict lookup on
string keys is modelled by `List.lookup` on this association list. -/
def COMMAND_IMPLEMENTATIONS : List (String × List Bytes) := [
  ("play",             [[0x56, 0xff, 0xff, 0x00, 0x07, 0xf1, 0x01]]),
  ("pause",            [[0x56, 0xff, 0xff, 0x00, 0x07, 0xf1, 0x02]]),
  ("reset",            [[0x56, 0xff, 0xff, 0x00, 0x07, 0xf1, 0x06]]),
  ("step_into",        [[0x56, 0xff, 0xff, 0x00, 0x07, 0xf1, 0x03]]),
  ("step_out",         [[0x56, 0xff, 0xff, 0x00, 0x07, 0xf1, 0x04]]),
  ("step_over",        [[0x56, 0xff, 0xff, 0x00, 0x07, 0xf1, 0x05]]),
  ("enter_debug",      [[0x56, 0xff, 0xff, 0x00, 0x07, 0xf0, 0x02]]),
  ("exit_debug",       [[0x56, 0xff, 0xff, 0x00, 0x07, 0xf0, 0x01]]),
  ("set_output_1_off", [[0x56, 0xff, 0xff, 0x00, 0x15, 0x11, 0x01, 0x00, 0x01, 0x00, 0x00, 0x09, 0x01, 0x00, 0x00, 0x01, 0x00, 0x01, 0x00, 0x00, 0x00]]),
  ("set_output_2_off", [[0x56, 0xff, 0xff, 0x00, 0x15, 0x11, 0x01, 0x00, 0x01, 0x00, 0x00, 0x09, 0x01, 0x00, 0x00, 0x01, 0x00, 0x02, 0x00, 0x00, 0x00]]),
  ("set_output_3_off", [[0x56, 0xff, 0xff, 0x00, 0x15, 0x11, 0x01, 0x00, 0x01, 0x00, 0x00, 0x09, 0x01, 0x00, 0x00, 0x01, 0x00, 0x04, 0x00, 0x00, 0x00]]),
  ("set_output_4_off", [[0x56, 0xff, 0xff, 0x00, 0x15, 0x11, 0x01, 0x00, 0x01, 0x00, 0x00, 0x09, 0x01, 0x00, 0x00, 0x01, 0x00, 0x08, 0x00, 0x00, 0x00]]),
  ("set_output_5_off", [[0x56, 0xff, 0xff, 0x00, 0x15, 0x11, 0x01, 0x00, 0x01, 0x00, 0x00, 0x09, 0x01, 0x00, 0x00, 0x01, 0x00, 0x10, 0x00, 0x00, 0x00]]),
  ("set_output_6_off", [[0x56, 0xff, 0xff, 0x00, 0x15, 0x11, 0x01, 0x00, 0x01, 0x00, 0x00, 0x09, 0x01, 0x00, 0x00, 0x01, 0x00, 0x20, 0x00, 0x00, 0x00]]),
  ("set_output_1_on",  [[0x56, 0xff, 0xff, 0x00, 0x15, 0x11, 0x01, 0x00, 0x01, 0x00, 0x00, 0x09, 0x01, 0x00, 0x00, 0x01, 0x00, 0x01, 0x00, 0x00, 0x01]]),
  ("set_output_2_on",  [[0x56, 0xff, 0xff, 0x00, 0x15, 0x11, 0x01, 0x00, 0x01, 0x00, 0x00, 0x09, 0x01, 0x00, 0x00, 0x01, 0x00, 0x02, 0x00, 0x00, 0x01]]),
  ("set_output_3_on",  [[0x56, 0xff, 0xff, 0x00, 0x15, 0x11, 0x01, 0x00, 0x01, 0x00, 0x00, 0x09, 0x01, 0x00, 0x00, 0x01, 0x00, 0x04, 0x00, 0x00, 0x01]]),
  ("set_output_4_on",  [[0x56, 0xff, 0xff, 0x00, 0x15, 0x11, 0x01, 0x00, 0x01, 0x00, 0x00, 0x09, 0x01, 0x00, 0x00, 0x01, 0x00, 0x08, 0x00, 0x00, 0x01]]),
  ("set_output_5_on",  [[0x56, 0xff, 0xff, 0x00, 0x15, 0x11, 0x01, 0x00, 0x01, 0x00, 0x00, 0x09, 0x01, 0x00, 0x00, 0x01, 0x00, 0x10, 0x00, 0x00, 0x01]]),
  ("set_output_6_on",  [[0x56, 0xff, 0xff, 0x00, 0x15, 0x11, 0x01, 0x00, 0x01, 0x00, 0x00, 0x09, 0x01, 0x00, 0x00, 0x01, 0x00, 0x20, 0x00, 0x00, 0x01]]),
  ("read_input_bits",  READ_INPUT_BITS),
  ("read_output_bits", READ_OUTPUT_BITS),
  ("read_tags",        [[0x56, 0xff, 0xff, 0x00, 0x06, 0xac]])]

/-- `TAG_COUNT_HEADER` = bytes of hex `56FFFF000AAC06`. -/
def TAG_COUNT_HEADER : Bytes := [0x56, 0xff, 0xff, 0x00, 0x0a, 0xac, 0x06]

/-- `TAG_READNAME_HEADER` = bytes of hex `56ffff00080a00`. -/
def TAG_READNAME_HEADER : Bytes := [0x56, 0xff, 0xff, 0x00, 0x08, 0x0a, 0x00]

/-- The drain loop of `write_ser_get_response`:
`while ser.inWaiting() > 0: response += ser.read()` — one byte is read and
appended to the accumulator per iteration, until nothing is pending. -/
def drainLoop : Bytes → Bytes → Bytes
  | acc, [] => acc
  | acc, b :: rest => drainLoop (acc ++ [b]) rest

/-- `write_ser_get_response(ser, insn)`: write the frame, sleep 100 ms
(during which the device's response to the frame joins whatever was
already pending), drain one byte at a time while bytes are pending, sleep
100 ms again, and return the accumulated response together with the new
port state. -/
def write_ser_get_response (dev : Device) (st : SerState) (insn : Bytes) :
    Bytes × SerState :=
  let available := st.pending ++ dev insn
  (drainLoop [] available, { pending := [], written := st.written ++ [insn] })

/-- Tag-name extraction from `cb_read_tags`: `r[9:].split(" ")[0]` —
drop the first 9 bytes, then take bytes up to (not including) the first
space (byte 32). -/
def extractTagName (r : Bytes) : Bytes :=
  (r.drop 9).takeWhile (fun b => b ≠ 32)

/-- Outcome of the tag-enumeration handler: either the list of
`(index, name)` pairs read, or the error-severity diagnostic dump of the
unexpected phase-1 response. -/
inductive TagResult where
  | ok (tags : List (Nat × Bytes))
  | protocolMismatch (dump : Bytes)
deriving Repr, DecidableEq

/-- The `for i in xrange(1, numtags+1)` loop of `cb_read_tags`, taking the
list of indices to query: for each index `i`, issue
`TAG_READNAME_HEADER + chr(i)` and extract the tag name from the
response. -/
def readTagsLoop (dev : Device) (st : SerState) :
    List Nat → List (Nat × Bytes) × SerState
  | [] => ([], st)
  | i :: rest =>
    let p := write_ser_get_response dev st (TAG_READNAME_HEADER ++ [i])
    let tname := extractTagName p.1
    let q := readTagsLoop dev p.2 rest
    ((i, tname) :: q.1, q.2)

/-- `cb_read_tags(ser, cname, respdata)`: if the phase-1 response starts
with `TAG_COUNT_HEADER`, read `numtags = ord(respdata[-1])` and query tag
names 1..numtags; otherwise log the response at error severity (the
protocol-mismatch dump) and issue nothing.  In the accepting branch the
response is nonempty (it extends the 7-byte header), so `ord(respdata[-1])`
is its last byte, modelled by `getLastD 0`. -/
def cb_read_tags (dev : Device) (st : SerState) (respdata : Bytes) :
    TagResult × SerState :=
  if TAG_COUNT_HEADER.isPrefixOf respdata then
    let numtags := respdata.getLastD 0
    let p := readTagsLoop dev st (List.range' 1 numtags)
    (TagResult.ok p.1, p.2)
  else
    (TagResult.protocolMismatch respdata, st)

/-- What the handler layer reports for one frame's response: the default
handler's raw hex dump, or the tag-enumeration result. -/
inductive HandlerOut where
  | defaultDump (resp : Bytes)
  | tags (r : TagResult)
deriving Repr, DecidableEq

/-- The per-frame loop of `send_command_read_response`: for each
instruction frame, collect the response, then run the callback registered
for the command (`COMMAND_CALLBACKS` holds only `read_tags`), or
`cb_default` otherwise. -/
def execFrames (dev : Device) (cname : String) (st : SerState) :
    List Bytes → List HandlerOut × SerState
  | [] => ([], st)
  | insn :: rest =>
    let p := write_ser_get_response dev st insn
    let q : HandlerOut × SerState :=
      if cname = "read_tags" then
        let t := cb_read_tags dev p.2 p.1
        (HandlerOut.tags t.1, t.2)
      else
        (HandlerOut.defaultDump p.1, p.2)
    let r := execFrames dev cname q.2 rest
    (q.1 :: r.1, r.2)

/-- `send_command_read_response(ser, cname)`: first the stale-input guard
(`if ser.inWaiting() > 0: ser.flushInput()`), then the frame loop over
`COMMAND_IMPLEMENTATIONS[cname]`.  The dict access presupposes the key
exists (the caller checks); an absent key is modelled as `none`. -/
def send_command_read_response (dev : Device) (st : SerState) (cname : String) :
    Option (List HandlerOut × SerState) :=
  let st0 := if st.pending.length > 0 then { st with pending := [] } else st
  match List.lookup cname COMMAND_IMPLEMENTATIONS with
  | none => none
  | some insns => some (execFrames dev cname st0 insns)

/-- Outcome of `process_command`: either the unknown-command error return,
or a completed run with the handler outputs. -/
inductive ProcOutcome where
  | unknownCommand
  | ran (outs : List HandlerOut)
deriving Repr, DecidableEq

/-- `process_command(incommand)` for command string `c`: if `c` is not in
`COMMAND_IMPLEMENTATIONS`, log the error and return (no serial connection
is opened, nothing is written); otherwise connect (the fresh port may hold
`stalePending` leftover bytes), execute, and close.  The second component
is the full list of frames written to the transport. -/
def process_command (dev : Device) (stalePending : Bytes) (c : String) :
    ProcOutcome × List Bytes :=
  if (List.lookup c COMMAND_IMPLEMENTATIONS).isSome then
    match send_command_read_response dev { pending := stalePending, written := [] } c with
    | some p => (ProcOutcome.ran p.1, p.2.written)
    | none => (ProcOutcome.unknownCommand, [])
  else
    (ProcOutcome.unknownCommand, [])

/-- A silent device: never responds to any frame.  Used as a concrete
device in closed statements. -/
def devNone : Device := fun _ => []

/-! ### Helper lemmas -/

/-- The drain loop appends the pending bytes, in order, to the
accumulator. -/
theorem drainLoop_eq (acc l : Bytes) : drainLoop acc l = acc ++ l := by
  induction l generalizing acc with
  | nil => simp [drainLoop]
  | cons b rest ih => simp [drainLoop, ih]

/-- Closed form of the response collector: the response is the pending
bytes followed by the device's reply, the port ends drained, and the
frame is appended to the write log. -/
theorem write_ser_get_response_eq (dev : Device) (st : SerState) (insn : Bytes) :
    write_ser_get_response dev st insn =
      (st.pending ++ dev insn,
       { pending := [], written := st.written ++ [insn] }) := by
  simp [write_ser_get_response, drainLoop_eq]

/-- The tag-name query loop writes exactly one frame
`TAG_READNAME_HEADER ++ [i]` per index `i`, in order. -/
theorem readTagsLoop_written (dev : Device) (l : List Nat) (st : SerState) :
    (readTagsLoop dev st l).2.written
      = st.written ++ l.map (fun i => TAG_READNAME_HEADER ++ [i]) := by
  induction l generalizing st with
  | nil => simp [readTagsLoop]
  | cons i rest ih =>
    simp [readTagsLoop, write_ser_get_response_eq, ih]

/-- `List.lookup` only returns pairs present in the association list. -/
theorem mem_of_lookup_eq_some {α β : Type} [BEq α] [LawfulBEq α]
    {l : List (α × β)} {a : α} {b : β}
    (h : List.lookup a l = some b) : (a, b) ∈ l := by
  induction l with
  | nil => simp [List.lookup] at h
  | cons p rest ih =>
    rw [List.lookup] at h
    split at h
    · rename_i heq
      cases h
      have : a = p.1 := by
        have := eq_of_beq heq
        exact this
      simp [this]
    · simp [ih h]

/-- After the stale-input guard, the pending bytes are empty and the
write log is untouched, whatever was pending. -/
theorem flush_guard_eq (st : SerState) :
    (if st.pending.length > 0 then { st with pending := [] } else st)
      = { pending := [], written := st.written } := by
  cases st with
  | mk p w => cases p <;> simp

/-! ### Claims -/

/-- C1: for every phase-1 response that begins with the 7-byte tag-count
header and whose final byte is `N`, `cb_read_tags` issues exactly `N`
follow-up tag-name query frames, in order for `i = 1..N`, each equal to
`TAG_READNAME_HEADER` (`56 FF FF 00 08 0A 00`) with the single byte `i`
appended. -/
theorem readTags_issues_N_frames (dev : Device) (st : SerState)
    (resp : Bytes) (N : Nat)
    (hpre : TAG_COUNT_HEADER.isPrefixOf resp = true)
    (hN : resp.getLastD 0 = N) :
    (cb_read_tags dev st resp).2.written
      = st.written ++ (List.range' 1 N).map (fun i => TAG_READNAME_HEADER ++ [i]) := by
  simp [cb_read_tags, hpre, readTagsLoop_written]
  rw [← hN, List.getLastD_eq_getLast?]

/-- Witness for C1: with a silent device and the phase-1 response
`56 FF FF 00 0A AC 06 03` (count = 3), exactly the frames with payload
bytes 1, 2, 3 are issued, in that order. -/
theorem readTags_issues_N_frames_witness :
    (cb_read_tags devNone { pending := [], written := [] }
        (TAG_COUNT_HEADER ++ [3])).2.written
      = [] ++ (List.range' 1 3).map (fun i => TAG_READNAME_HEADER ++ [i]) :=
  readTags_issues_N_frames devNone { pending := [], written := [] }
    (TAG_COUNT_HEADER ++ [3]) 3 (by decide) (by decide)

/-- C2: for every phase-1 response that does not begin with the tag-count
header, `cb_read_tags` signals the protocol mismatch (the error-severity
diagnostic dump of the response) and leaves the port state untouched, so
zero follow-up frames are issued; the handler returns normally. -/
theorem readTags_rejects_bad_header (dev : Device) (st : SerState)
    (resp : Bytes)
    (h : ¬ TAG_COUNT_HEADER.isPrefixOf resp = true) :
    cb_read_tags dev st resp = (TagResult.protocolMismatch resp, st) := by
  simp [cb_read_tags, h]

/-- Witness for C2: the one-byte response `00` is rejected with a
protocol-mismatch dump and no state change. -/
theorem readTags_rejects_bad_header_witness :
    cb_read_tags devNone { pending := [], written := [] } [0x00]
      = (TagResult.protocolMismatch [0x00], { pending := [], written := [] }) :=
  readTags_rejects_bad_header devNone { pending := [], written := [] } [0x00]
    (by decide)

/-- C3: tag-name extraction drops the first 9 bytes and takes bytes up to
the first space; for every response equal to 9 arbitrary bytes followed by
the ASCII bytes of "MOTOR1 XYZ", the extracted name is the ASCII bytes of
"MOTOR1". -/
theorem extractTagName_motor1 (pre : Bytes) (h : pre.length = 9) :
    extractTagName (pre ++ "MOTOR1 XYZ".data.map Char.toNat)
      = "MOTOR1".data.map Char.toNat := by
  unfold extractTagName
  rw [← h, List.drop_left]
  decide

/-- Witness for C3: nine zero bytes followed by "MOTOR1 XYZ" extract to
"MOTOR1". -/
theorem extractTagName_motor1_witness :
    extractTagName (List.replicate 9 0 ++ "MOTOR1 XYZ".data.map Char.toNat)
      = "MOTOR1".data.map Char.toNat :=
  extractTagName_motor1 (List.replicate 9 0) (by decide)

/-- C10: for every tag-name response of at most 9 bytes (the empty
response included), extraction returns the empty name; the 9-byte skip
and the space split are total, so no error arises. -/
theorem extractTagName_short (r : Bytes) (h : r.length ≤ 9) :
    extractTagName r = [] := by
  unfold extractTagName
  rw [List.drop_eq_nil_of_le h]
  rfl

/-- Witness for C10: the empty response extracts to the empty name. -/
theorem extractTagName_short_witness : extractTagName [] = [] :=
  extractTagName_short [] (by decide)

/-- C5: the response collector writes the frame, drains and concatenates
all available bytes, and returns exactly the accumulated bytes; when no
bytes are available at any poll the response is empty and no error is
raised (the function is total). -/
theorem write_ser_collects (dev : Device) (st : SerState) (insn : Bytes) :
    (write_ser_get_response dev st insn).1 = st.pending ++ dev insn ∧
    (write_ser_get_response dev st insn).2
      = { pending := [], written := st.written ++ [insn] } ∧
    (st.pending = [] → dev insn = [] →
      (write_ser_get_response dev st insn).1 = []) := by
  refine ⟨?_, ?_, ?_⟩
  · simp [write_ser_get_response_eq]
  · simp [write_ser_get_response_eq]
  · intro h1 h2
    simp [write_ser_get_response_eq, h1, h2]

/-- Witness for C5: a silent device and an initially drained port yield
the empty response. -/
theorem write_ser_collects_witness :
    (write_ser_get_response devNone { pending := [], written := [] }
        [0x56, 0xff, 0xff, 0x00, 0x06, 0xac]).1 = [] :=
  (write_ser_collects devNone { pending := [], written := [] }
      [0x56, 0xff, 0xff, 0x00, 0x06, 0xac]).2.2 rfl rfl

/-- C4: every identifier in the closed vocabulary maps to a non-empty
frame sequence, and for every identifier absent from the catalog
`process_command` returns the unknown-command outcome having written no
frames to the transport (a normal return, not a crash). -/
theorem catalog_lookup_total (dev : Device) (stale : Bytes) :
    (∀ c fr, List.lookup c COMMAND_IMPLEMENTATIONS = some fr → fr ≠ []) ∧
    (∀ c, List.lookup c COMMAND_IMPLEMENTATIONS = none →
      process_command dev stale c = (ProcOutcome.unknownCommand, [])) := by
  constructor
  · intro c fr h
    have hmem := mem_of_lookup_eq_some h
    have hall : ∀ p ∈ COMMAND_IMPLEMENTATIONS, p.2 ≠ ([] : List Bytes) := by decide
    exact hall (c, fr) hmem
  · intro c h
    simp [process_command, h]

/-- Witness for C4: "play" maps to its single non-empty control frame,
and the unknown identifier "bogus" yields the unknown-command outcome
with no frames written. -/
theorem catalog_lookup_total_witness :
    ([[0x56, 0xff, 0xff, 0x00, 0x07, 0xf1, 0x01]] : List Bytes) ≠ [] ∧
    process_command devNone [] "bogus" = (ProcOutcome.unknownCommand, []) :=
  ⟨(catalog_lookup_total devNone []).1 "play"
      [[0x56, 0xff, 0xff, 0x00, 0x07, 0xf1, 0x01]] (by decide),
   (catalog_lookup_total devNone []).2 "bogus" (by decide)⟩

/-- C6: the stale-input guard discards any bytes pending before the
command's first frame is written, so two executions of the same command
on the same device that differ only in the stale pending bytes produce
identical results — the stale bytes never appear in any collected
response. -/
theorem stale_input_guard (dev : Device) (c : String)
    (p1 p2 : Bytes) (w : List Bytes) :
    send_command_read_response dev { pending := p1, written := w } c
      = send_command_read_response dev { pending := p2, written := w } c := by
  unfold send_command_read_response
  rw [flush_guard_eq, flush_guard_eq]

/-- Layout check of one `set_output_k_on`/`set_output_k_off` frame pair:
each command resolves to a single 21-byte frame, the two frames share the
bitmask byte (index 17) with value `mask`, end in flag byte 1 (on) and 0
(off) respectively, and agree on every byte but the last. -/
def outputPairChk (con coff : String) (mask : Nat) : Bool :=
  let fon := ((List.lookup con COMMAND_IMPLEMENTATIONS).getD []).headD []
  let foff := ((List.lookup coff COMMAND_IMPLEMENTATIONS).getD []).headD []
  ((List.lookup con COMMAND_IMPLEMENTATIONS).getD [] == [fon]) &&
  ((List.lookup coff COMMAND_IMPLEMENTATIONS).getD [] == [foff]) &&
  (fon.length == 21) && (foff.length == 21) &&
  (fon.getD 17 0 == mask) && (foff.getD 17 0 == mask) &&
  (fon.getLastD 0 == 1) && (foff.getLastD 0 == 0) &&
  (fon.dropLast == foff.dropLast)

/-- C7: for each `k` in 1..6, the on frame and the off frame of output
`k` are 21 bytes long and byte-identical except for the final flag byte
(1 for on, 0 for off); the bitmask byte is shared between the pair with
value 0x01, 0x02, 0x04, 0x08, 0x10, 0x20 for k = 1..6. -/
theorem set_output_pairs_ok :
    outputPairChk "set_output_1_on" "set_output_1_off" 0x01 = true ∧
    outputPairChk "set_output_2_on" "set_output_2_off" 0x02 = true ∧
    outputPairChk "set_output_3_on" "set_output_3_off" 0x04 = true ∧
    outputPairChk "set_output_4_on" "set_output_4_off" 0x08 = true ∧
    outputPairChk "set_output_5_on" "set_output_5_off" 0x10 = true ∧
    outputPairChk "set_output_6_on" "set_output_6_off" 0x20 = true := by
  decide

/-- C8: `read_input_bits` and `read_output_bits` each resolve to exactly
6 frames of exactly 8 bytes, the final opcode bytes are strictly
increasing within each group, and the two groups' final opcode sets are
disjoint. -/
theorem read_bits_frames_ok :
    READ_INPUT_BITS.length = 6 ∧ READ_OUTPUT_BITS.length = 6 ∧
    (∀ f ∈ READ_INPUT_BITS, f.length = 8) ∧
    (∀ f ∈ READ_OUTPUT_BITS, f.length = 8) ∧
    List.Pairwise (· < ·) (READ_INPUT_BITS.map (fun f => f.getLastD 0)) ∧
    List.Pairwise (· < ·) (READ_OUTPUT_BITS.map (fun f => f.getLastD 0)) ∧
    (∀ b ∈ READ_INPUT_BITS.map (fun f => f.getLastD 0),
      b ∉ READ_OUTPUT_BITS.map (fun f => f.getLastD 0)) := by
  decide

/-- Witness for C8: the first input-bit frame is 8 bytes, and its final
opcode byte 0x01 is not a final opcode of the output group. -/
theorem read_bits_frames_ok_witness :
    ([0x56, 0xff, 0xff, 0x00, 0x08, 0x0a, 0x00, 0x01] : Bytes).length = 8 :=
  read_bits_frames_ok.2.2.1 [0x56, 0xff, 0xff, 0x00, 0x08, 0x0a, 0x00, 0x01]
    (by decide)

/-- C9: phase-1 acceptance checks only the 7-byte header prefix and the
count is the last byte of the whole response: the response equal to
exactly `56 FF FF 00 0A AC 06` (no count byte appended) is accepted, the
header's own final byte 0x06 is read as the count, and 6 tag-name queries
are issued with indices 1..6. -/
theorem readTags_bare_header_counts_six :
    cb_read_tags devNone { pending := [], written := [] } TAG_COUNT_HEADER
      = (TagResult.ok [(1, []), (2, []), (3, []), (4, []), (5, []), (6, [])],
         { pending := [],
           written := (List.range' 1 6).map
             (fun i => TAG_READNAME_HEADER ++ [i]) }) := by
  rfl

end Velocio
